import Mathlib

/-!
Verification development for the bottle-label checker (`src/main.py`).

The program drives an OPC-UA connected PLC: it polls an exit flag, a
proximity sensor and a session counter, captures an image, classifies
whether a label is present, and commands ejection when the label is
missing.  We embed the two core parts shallowly:

* the classifier (`check_label`, `classifyCameraImage`, lines 41-63),
  with OpenCV contours modelled by the measurements the program
  actually queries on them;
* one iteration of the `while 1` control loop (lines 76-93) as a step
  function from the tracked `lastSession` value and the cycle's
  external reads to an outcome, the new tracked value and the set of
  observable events (controller writes, reads, capture, verdict).
-/

namespace MainPy

/--
A contour as the program observes it through OpenCV.  `main.py` never
inspects the point list of a contour; it only queries the library:

* `approxVertices` — `len(cv2.approxPolyDP(contour, eps, True))` where
  `eps = 0.1 * cv2.arcLength(contour, True)` (10% of perimeter,
  lines 55-56);
* `area` — `cv2.contourArea(contour)`: the area enclosed by the raw,
  unsimplified contour (line 57);
* `approxArea` — the area enclosed by the simplified polygon produced
  by `approxPolyDP`.  The program never queries this; it is carried
  so the specification's wording ("the polygon's enclosed area") can
  be compared against what the code computes.

Areas are real-valued in OpenCV; we model them as rationals.
-/
structure Contour where
  approxVertices : Nat
  area : ℚ
  approxArea : ℚ
deriving DecidableEq

/-- The acceptance test of `main.py` line 59:
`len(approx) == 4 and 1000 < area < 20000`, where `area` is
`cv2.contourArea(contour)` — the raw contour's area. -/
def labelCond (c : Contour) : Bool :=
  c.approxVertices == 4 && (decide ((1000 : ℚ) < c.area) && decide (c.area < (20000 : ℚ)))

/-- `check_label` (lines 51-63): scan the contour list in the order the
boundary-tracing pass produced it; return `True` at the first contour
passing `labelCond` (lines 59-62), `False` if the loop completes
(line 63). -/
def check_label : List Contour → Bool
  | [] => false
  | c :: rest => if labelCond c then true else check_label rest

/-- The contour at which `check_label` stops: the first element passing
`labelCond`, i.e. the contour drawn onto the colour overlay at line 60
when the scan succeeds. -/
def check_label_found : List Contour → Option Contour
  | [] => none
  | c :: rest => if labelCond c then some c else check_label_found rest

/-- A frame, modelled by the contour list that
`cv2.findContours(cv2.adaptiveThreshold(img, 255, MEAN_C, BINARY, 11, 5), RETR_TREE, CHAIN_APPROX_NONE)`
yields for it (lines 43-44), in the order of the boundary-tracing
pass.  An empty or fully uniform image yields the empty list. -/
structure Frame where
  contours : List Contour
deriving DecidableEq

inductive ClassificationResult where
  | LabelPresent
  | LabelMissing
deriving DecidableEq

/-- The verdict of the classifier on a frame: `LabelPresent` when
`check_label` succeeds on the frame's contours, `LabelMissing`
otherwise (lines 46-48 encode the same decision as the boolean
`not check_label(contours)` returned to the caller). -/
def classify (f : Frame) : ClassificationResult :=
  if check_label f.contours then ClassificationResult.LabelPresent
  else ClassificationResult.LabelMissing

/-- `classifyCameraImage` (lines 41-48).  Its input image is its own
`cv2.imread(imageName, IMREAD_GRAYSCALE)` at line 42 — not the frame
stored by `grabFrame`.  A failed read yields `None`, on which
`cv2.adaptiveThreshold` at line 43 raises, so the function either
raises (`Except.error`) or returns the truthiness of its Python return
value: `True` ("eject") iff `check_label` found no label. -/
def classifyCameraImage (img : Option Frame) : Except Unit Bool :=
  match img with
  | none => Except.error ()
  | some f => Except.ok (!check_label f.contours)

/-- Acceptance test worded as the specification states it (§4.1 steps
b-d): exactly 4 vertices AND the *simplified polygon's* enclosed area
strictly between 1000 and 20000.  Defined for comparison with
`labelCond`, which uses the raw contour's area instead. -/
def specLabelCond (c : Contour) : Bool :=
  c.approxVertices == 4 &&
    (decide ((1000 : ℚ) < c.approxArea) && decide (c.approxArea < (20000 : ℚ)))

/-! ## The control loop (lines 73-93) -/

/-- Initial value of the module-level global `lastSession = 0`
(line 12). -/
def initLastSession : Int := 0

/--
The external reads one iteration of the `while 1` loop can perform.
Each field is one read site in the source, in program order:

* `exitFlag` — `exitScript()` at line 77;
* `sensor` — `checkSensor()` at line 84;
* `sessionA`, `sessionB`, `sessionC` — the up to three separate
  `getSessionNumber()` OPC reads at lines 84, 86 and 89 (the code
  re-reads the node rather than caching one snapshot);
* `grabRead` — the `cv2.imread(imageName)` inside `grabFrame`
  (line 38), `none` when the read fails;
* `classifyRead` — the independent
  `cv2.imread(imageName, IMREAD_GRAYSCALE)` inside
  `classifyCameraImage` (line 42), `none` when the read fails.
-/
structure Poll where
  exitFlag : Bool
  sensor : Bool
  sessionA : Int
  sessionB : Int
  sessionC : Int
  grabRead : Option Frame
  classifyRead : Option Frame
deriving DecidableEq

/-- The controller's session node holds one value throughout the poll:
all session reads of the cycle agree.  This is the specification's
`ControllerSnapshot` view of a cycle. -/
def Poll.stable (p : Poll) : Prop :=
  p.sessionA = p.sessionB ∧ p.sessionB = p.sessionC

instance (p : Poll) : Decidable p.stable := by
  unfold Poll.stable; infer_instance

/-- The externally observable events of one loop iteration:

* `disconnected` — `client.disconnect()` ran (line 79);
* `sensorRead` — `checkSensor()` ran (line 84);
* `sessionReads` — how many `getSessionNumber()` OPC reads ran;
* `captured` — `grabFrame()` ran (line 90);
* `classifyInvoked` — `classifyCameraImage()` was entered (line 92);
* `verdict` — the classification result when classification completed
  (`none` when it was not reached or raised);
* `ejected` — `activateEject()` wrote the reject command (line 93).
-/
structure Events where
  disconnected : Bool
  sensorRead : Bool
  sessionReads : Nat
  captured : Bool
  classifyInvoked : Bool
  verdict : Option ClassificationResult
  ejected : Bool
deriving DecidableEq

/-- How one loop iteration ends. -/
inductive Outcome where
  /-- `break` at line 81: the loop halts cleanly (terminal state). -/
  | halted
  /-- an exception escaped the iteration (nothing in the loop catches,
  so the process dies with a traceback). -/
  | crashed
  /-- the iteration completed and control returns to the top of
  `while 1` (back to polling). -/
  | looped
deriving DecidableEq

structure CycleResult where
  outcome : Outcome
  lastSession : Int
  events : Events
deriving DecidableEq

/--
One iteration of the `while 1` loop (lines 76-93), as a function of
the tracked `lastSession` global and the iteration's external reads.

* line 77: if `exitScript()` is true, disconnect and `break`;
* line 84: else if `checkSensor() and lastSession != getSessionNumber()`
  (short-circuit: the session node is only read when the sensor is
  triggered);
* lines 86-89: update `lastSession` — `0` when the re-read session
  number equals `5`, otherwise a third read of the session number
  (the `else` branch re-reads the node once more);
* line 90: `grabFrame()` stores its image in a global that nothing
  ever reads again;
* lines 92-93: `classifyCameraImage()` re-reads the image itself; a
  failed read makes `cv2.adaptiveThreshold` raise and the exception
  escapes the loop; otherwise `activateEject()` runs iff the returned
  value is `True` (no label found).
-/
def cycle (lastSession : Int) (p : Poll) : CycleResult :=
  if p.exitFlag then
    ⟨Outcome.halted, lastSession, ⟨true, false, 0, false, false, none, false⟩⟩
  else if p.sensor && (lastSession != p.sessionA) then
    let last1 : Int := if p.sessionB == 5 then 0 else p.sessionC
    let reads : Nat := if p.sessionB == 5 then 2 else 3
    match classifyCameraImage p.classifyRead with
    | Except.error _ =>
      ⟨Outcome.crashed, last1, ⟨false, true, reads, true, true, none, false⟩⟩
    | Except.ok eject =>
      ⟨Outcome.looped, last1,
        ⟨false, true, reads, true, true,
          some (if eject then ClassificationResult.LabelMissing
                else ClassificationResult.LabelPresent),
          eject⟩⟩
  else
    ⟨Outcome.looped, lastSession,
      ⟨false, true, if p.sensor then 1 else 0, false, false, none, false⟩⟩

/-- The dedup policy of lines 84-89 for a poll whose session reads all
return the same value `s`: process iff `s` differs from the tracked
value; on processing, track `0` when `s = 5` and `s` otherwise. -/
def shouldProcess (s lastSession : Int) : Bool × Int :=
  if lastSession != s then (true, if s == 5 then 0 else s)
  else (false, lastSession)

/-- The tracked `lastSession` value after running the loop on a list of
polls, starting from `lastSession`.  A `halted` or `crashed` iteration
stops the run (the remaining polls never happen). -/
def runLoop (lastSession : Int) : List Poll → Int
  | [] => lastSession
  | p :: ps =>
    if (cycle lastSession p).outcome = Outcome.looped then
      runLoop (cycle lastSession p).lastSession ps
    else (cycle lastSession p).lastSession

/-! ## Helper lemmas -/

theorem labelCond_iff (c : Contour) :
    labelCond c = true ↔
      c.approxVertices = 4 ∧ (1000 : ℚ) < c.area ∧ c.area < 20000 := by
  simp [labelCond, and_assoc]

theorem check_label_true_iff (cs : List Contour) :
    check_label cs = true ↔ ∃ c ∈ cs, labelCond c = true := by
  induction cs with
  | nil => simp [check_label]
  | cons c rest ih =>
    by_cases h : labelCond c
    · simp [check_label, h]
    · simp [check_label, h, ih]

theorem classify_present_iff (f : Frame) :
    classify f = ClassificationResult.LabelPresent ↔ check_label f.contours = true := by
  unfold classify
  by_cases h : check_label f.contours
  · simp [h]
  · simp [h]

/-! ## Branch lemmas for `cycle` -/

theorem cycle_exit (lastSession : Int) (p : Poll) (hx : p.exitFlag = true) :
    cycle lastSession p =
      ⟨Outcome.halted, lastSession, ⟨true, false, 0, false, false, none, false⟩⟩ := by
  simp [cycle, hx]

theorem cycle_skip (lastSession : Int) (p : Poll) (hx : p.exitFlag = false)
    (h : p.sensor = false ∨ lastSession = p.sessionA) :
    cycle lastSession p =
      ⟨Outcome.looped, lastSession,
        ⟨false, true, if p.sensor then 1 else 0, false, false, none, false⟩⟩ := by
  have hg : (p.sensor && (lastSession != p.sessionA)) = false := by
    rcases h with h | h
    · simp [h]
    · simp [h]
  simp [cycle, hx, hg]

theorem cycle_run_none (lastSession : Int) (p : Poll) (hx : p.exitFlag = false)
    (hs : p.sensor = true) (hne : lastSession ≠ p.sessionA) (hr : p.classifyRead = none) :
    cycle lastSession p =
      ⟨Outcome.crashed, if p.sessionB = 5 then 0 else p.sessionC,
        ⟨false, true, if p.sessionB = 5 then 2 else 3, true, true, none, false⟩⟩ := by
  have hg : (p.sensor && (lastSession != p.sessionA)) = true := by simp [hs, hne]
  simp [cycle, hx, hg, hr, classifyCameraImage]

theorem cycle_run_some (lastSession : Int) (p : Poll) (f : Frame) (hx : p.exitFlag = false)
    (hs : p.sensor = true) (hne : lastSession ≠ p.sessionA) (hr : p.classifyRead = some f) :
    cycle lastSession p =
      ⟨Outcome.looped, if p.sessionB = 5 then 0 else p.sessionC,
        ⟨false, true, if p.sessionB = 5 then 2 else 3, true, true,
          some (classify f), !check_label f.contours⟩⟩ := by
  have hg : (p.sensor && (lastSession != p.sessionA)) = true := by simp [hs, hne]
  by_cases hcl : check_label f.contours
  · simp [cycle, hx, hg, hr, classifyCameraImage, classify, hcl]
  · simp [cycle, hx, hg, hr, classifyCameraImage, classify, hcl]

/-- In a processing cycle the tracked value becomes `0` when the
line-86 session read returns `5`, and the line-89 session read
otherwise — regardless of whether classification completes. -/
theorem cycle_process_lastSession (lastSession : Int) (p : Poll) (hx : p.exitFlag = false)
    (hs : p.sensor = true) (hne : lastSession ≠ p.sessionA) :
    (cycle lastSession p).lastSession = if p.sessionB = 5 then 0 else p.sessionC := by
  cases hr : p.classifyRead with
  | none => rw [cycle_run_none lastSession p hx hs hne hr]
  | some f => rw [cycle_run_some lastSession p f hx hs hne hr]

/-- A non-exit cycle runs `grabFrame` exactly when the sensor is
triggered and the tracked value differs from the line-84 session
read. -/
theorem cycle_captured_iff (lastSession : Int) (p : Poll) (hx : p.exitFlag = false) :
    (cycle lastSession p).events.captured = true ↔
      p.sensor = true ∧ lastSession ≠ p.sessionA := by
  by_cases hg : p.sensor = true ∧ lastSession ≠ p.sessionA
  · obtain ⟨hs, hne⟩ := hg
    cases hr : p.classifyRead with
    | none => rw [cycle_run_none lastSession p hx hs hne hr]; simp [hs, hne]
    | some f => rw [cycle_run_some lastSession p f hx hs hne hr]; simp [hs, hne]
  · have h : p.sensor = false ∨ lastSession = p.sessionA := by
      by_cases hs : p.sensor = true
      · right
        by_contra hne
        exact hg ⟨hs, hne⟩
      · left
        exact Bool.eq_false_iff.mpr hs
    rw [cycle_skip lastSession p hx h]
    simpa using hg

/-! ## Claim theorems: the classifier -/

/-- Claim C1: for every frame, `classify` returns `LabelPresent` iff the
contour scan finds at least one contour whose 10%-of-perimeter polygon
simplification has exactly 4 vertices and whose measured area lies
strictly between 1000 and 20000; areas of exactly 1000 or 20000 are
rejected while 1001 and 19999 are accepted, and a frame yielding no
contours deterministically gives `LabelMissing`. -/
theorem classify_quad_area_characterisation :
    (∀ f : Frame, classify f = ClassificationResult.LabelPresent ↔
      ∃ c ∈ f.contours,
        c.approxVertices = 4 ∧ (1000 : ℚ) < c.area ∧ c.area < 20000) ∧
    (∀ f : Frame, f.contours = [] → classify f = ClassificationResult.LabelMissing) ∧
    classify ⟨[⟨4, 1000, 1000⟩]⟩ = ClassificationResult.LabelMissing ∧
    classify ⟨[⟨4, 20000, 20000⟩]⟩ = ClassificationResult.LabelMissing ∧
    classify ⟨[⟨4, 1001, 1001⟩]⟩ = ClassificationResult.LabelPresent ∧
    classify ⟨[⟨4, 19999, 19999⟩]⟩ = ClassificationResult.LabelPresent := by
  refine ⟨?_, ?_, by decide, by decide, by decide, by decide⟩
  · intro f
    rw [classify_present_iff, check_label_true_iff]
    exact exists_congr fun c => and_congr_right fun _ => labelCond_iff c
  · intro f h
    simp [classify, h, check_label]

/-- Witness for C1: the empty frame is classified `LabelMissing`. -/
theorem classify_quad_area_characterisation_witness :
    classify ⟨[]⟩ = ClassificationResult.LabelMissing :=
  classify_quad_area_characterisation.2.1 ⟨[]⟩ rfl

/-- Claim C3, counterexample: the code's acceptance test compares the
raw contour's area (`cv2.contourArea(contour)`, line 57) against
(1000, 20000), not the simplified polygon's area.  A contour whose raw
area is 1500 but whose simplified polygon encloses only 500 is
accepted by the code yet rejected by the spec's wording, and
conversely a raw area of 500 with a polygon area of 1500 is rejected
by the code yet accepted by the spec's wording. -/
theorem labelCond_ignores_polygon_area :
    labelCond ⟨4, 1500, 500⟩ = true ∧ specLabelCond ⟨4, 1500, 500⟩ = false ∧
    labelCond ⟨4, 500, 1500⟩ = false ∧ specLabelCond ⟨4, 500, 1500⟩ = true := by
  decide

/-- Claim C3, amended: the area the acceptance test compares against
the open interval (1000, 20000) is the area of the raw, unsimplified
contour; a candidate is accepted iff the simplified polygon has
exactly 4 vertices and the raw contour's area is in the range. -/
theorem labelCond_uses_raw_contour_area :
    ∀ c : Contour, labelCond c = true ↔
      c.approxVertices = 4 ∧ (1000 : ℚ) < c.area ∧ c.area < 20000 :=
  labelCond_iff

/-- Claim C4: the scan examines contours exactly in the order of the
list produced by the boundary-tracing pass with no re-sorting; the
first contour passing the 4-vertex and area test short-circuits the
scan with success (later qualifying candidates are never considered),
and when no contour passes the scan completes and the frame is
classified `LabelMissing`. -/
theorem check_label_first_match :
    (∀ cs : List Contour, check_label cs = (check_label_found cs).isSome) ∧
    (∀ (pre post : List Contour) (c : Contour),
      (∀ x ∈ pre, labelCond x = false) → labelCond c = true →
        check_label_found (pre ++ c :: post) = some c ∧
        check_label (pre ++ c :: post) = true) ∧
    (∀ cs : List Contour, (∀ x ∈ cs, labelCond x = false) →
      check_label cs = false ∧ classify ⟨cs⟩ = ClassificationResult.LabelMissing) := by
  refine ⟨?_, ?_, ?_⟩
  · intro cs
    induction cs with
    | nil => simp [check_label, check_label_found]
    | cons c rest ih =>
      by_cases h : labelCond c
      · simp [check_label, check_label_found, h]
      · simp [check_label, check_label_found, h, ih]
  · intro pre post c hpre hc
    induction pre with
    | nil => simp [check_label, check_label_found, hc]
    | cons x rest ih =>
      have hx : labelCond x = false := hpre x (by simp)
      have hrest : ∀ y ∈ rest, labelCond y = false := fun y hy => hpre y (by simp [hy])
      simpa [check_label, check_label_found, hx] using ih hrest
  · intro cs hcs
    have h : check_label cs = false := by
      induction cs with
      | nil => simp [check_label]
      | cons c rest ih =>
        have hc : labelCond c = false := hcs c (by simp)
        have hrest : ∀ y ∈ rest, labelCond y = false := fun y hy => hcs y (by simp [hy])
        simp [check_label, hc, ih hrest]
    exact ⟨h, by simp [classify, h]⟩

/-- Witness for C4: with a failing contour first, a qualifying contour
second and another qualifying contour third, the scan stops at the
second contour. -/
theorem check_label_first_match_witness :
    check_label_found ([⟨3, 5000, 0⟩] ++ ⟨4, 5000, 0⟩ :: [⟨4, 6000, 0⟩]) = some ⟨4, 5000, 0⟩ ∧
    check_label ([⟨3, 5000, 0⟩] ++ ⟨4, 5000, 0⟩ :: [⟨4, 6000, 0⟩]) = true :=
  check_label_first_match.2.1 [⟨3, 5000, 0⟩] [⟨4, 6000, 0⟩] ⟨4, 5000, 0⟩ (by decide) (by decide)

/-! ## Range lemmas for the tracked session value -/

theorem cycle_lastSession_range (lastSession : Int) (p : Poll)
    (h0 : 0 ≤ lastSession) (h4 : lastSession ≤ 4) (hst : p.stable)
    (hs0 : 0 ≤ p.sessionA) (hs5 : p.sessionA ≤ 5) :
    0 ≤ (cycle lastSession p).lastSession ∧ (cycle lastSession p).lastSession ≤ 4 := by
  obtain ⟨hAB, hBC⟩ := hst
  by_cases hx : p.exitFlag = true
  · rw [cycle_exit lastSession p hx]
    exact ⟨h0, h4⟩
  · have hx' : p.exitFlag = false := Bool.eq_false_iff.mpr hx
    by_cases hg : p.sensor = true ∧ lastSession ≠ p.sessionA
    · rw [cycle_process_lastSession lastSession p hx' hg.1 hg.2]
      by_cases h5 : p.sessionB = 5
      · simp [h5]
      · have hC : p.sessionC = p.sessionA := by rw [← hBC, ← hAB]
        have h5A : p.sessionA ≠ 5 := by rw [← hAB] at h5; exact h5
        rw [if_neg h5, hC]
        constructor
        · exact hs0
        · omega
    · have h : p.sensor = false ∨ lastSession = p.sessionA := by
        by_cases hs : p.sensor = true
        · right
          by_contra hne
          exact hg ⟨hs, hne⟩
        · left
          exact Bool.eq_false_iff.mpr hs
      rw [cycle_skip lastSession p hx' h]
      exact ⟨h0, h4⟩

theorem runLoop_range (tr : List Poll) :
    ∀ lastSession : Int, 0 ≤ lastSession → lastSession ≤ 4 →
      (∀ p ∈ tr, p.stable ∧ 0 ≤ p.sessionA ∧ p.sessionA ≤ 5) →
      0 ≤ runLoop lastSession tr ∧ runLoop lastSession tr ≤ 4 := by
  induction tr with
  | nil =>
    intro l h0 h4 _
    exact ⟨h0, h4⟩
  | cons p ps ih =>
    intro l h0 h4 hall
    have hp := hall p (by simp)
    have hps : ∀ q ∈ ps, q.stable ∧ 0 ≤ q.sessionA ∧ q.sessionA ≤ 5 :=
      fun q hq => hall q (by simp [hq])
    have hr := cycle_lastSession_range l p h0 h4 hp.1 hp.2.1 hp.2.2
    by_cases hout : (cycle l p).outcome = Outcome.looped
    · rw [runLoop, if_pos hout]
      exact ih _ hr.1 hr.2 hps
    · rw [runLoop, if_neg hout]
      exact hr

/-! ## Claim theorems: the control loop -/

/-- Claim C2: for a non-exit poll with the sensor triggered and a
stable session read `s`, the loop captures and classifies iff
`s ≠ lastSession`; on processing the tracked value becomes `0` when
`s = 5` and `s` otherwise, on skipping it is unchanged; this agrees
with the session-tracker policy `shouldProcess`, whose four
specification examples evaluate as stated. -/
theorem dedup_policy :
    (∀ (s lastSession : Int) (p : Poll),
      p.exitFlag = false → p.sensor = true → p.stable → p.sessionA = s →
        (((cycle lastSession p).events.captured = true ∧
            (cycle lastSession p).events.classifyInvoked = true) ↔ s ≠ lastSession) ∧
        (s ≠ lastSession →
          (cycle lastSession p).lastSession = if s = 5 then 0 else s) ∧
        (s = lastSession → (cycle lastSession p).lastSession = lastSession) ∧
        (cycle lastSession p).lastSession = (shouldProcess s lastSession).2 ∧
        ((shouldProcess s lastSession).1 = true ↔ s ≠ lastSession)) ∧
    shouldProcess 3 3 = (false, 3) ∧
    shouldProcess 4 3 = (true, 4) ∧
    shouldProcess 5 4 = (true, 0) ∧
    shouldProcess 0 0 = (false, 0) := by
  refine ⟨?_, by decide, by decide, by decide, by decide⟩
  intro s lastSession p hx hs hst hA
  obtain ⟨hAB, hBC⟩ := hst
  have hB : p.sessionB = s := by rw [← hAB, hA]
  have hC : p.sessionC = s := by rw [← hBC, hB]
  by_cases heq : lastSession = p.sessionA
  · have hsl : s = lastSession := by rw [← hA, heq]
    rw [cycle_skip lastSession p hx (Or.inr heq)]
    simp [shouldProcess, hsl]
  · have hne : s ≠ lastSession := by
      rw [← hA]
      exact fun h => heq h.symm
    have hlast : (cycle lastSession p).lastSession = if s = 5 then 0 else s := by
      rw [cycle_process_lastSession lastSession p hx hs heq, hB, hC]
    have hcap : (cycle lastSession p).events.captured = true ∧
        (cycle lastSession p).events.classifyInvoked = true := by
      cases hr : p.classifyRead with
      | none => rw [cycle_run_none lastSession p hx hs heq hr]; exact ⟨rfl, rfl⟩
      | some f => rw [cycle_run_some lastSession p f hx hs heq hr]; exact ⟨rfl, rfl⟩
    refine ⟨by simp [hcap, hne], fun _ => hlast, fun h => absurd h hne, ?_, ?_⟩
    · rw [hlast]
      simp [shouldProcess, Ne.symm hne]
    · simp [shouldProcess, Ne.symm hne, hne]

/-- Witness for C2: from tracked value 3, a stable sensor-triggered
poll reading session 4 captures, classifies and tracks 4. -/
theorem dedup_policy_witness :
    (((cycle 3 ⟨false, true, 4, 4, 4, some ⟨[]⟩, some ⟨[]⟩⟩).events.captured = true ∧
        (cycle 3 ⟨false, true, 4, 4, 4, some ⟨[]⟩, some ⟨[]⟩⟩).events.classifyInvoked = true) ↔
      (4 : Int) ≠ 3) ∧
    ((4 : Int) ≠ 3 →
      (cycle 3 ⟨false, true, 4, 4, 4, some ⟨[]⟩, some ⟨[]⟩⟩).lastSession =
        if (4 : Int) = 5 then 0 else 4) ∧
    ((4 : Int) = 3 →
      (cycle 3 ⟨false, true, 4, 4, 4, some ⟨[]⟩, some ⟨[]⟩⟩).lastSession = 3) ∧
    (cycle 3 ⟨false, true, 4, 4, 4, some ⟨[]⟩, some ⟨[]⟩⟩).lastSession =
      (shouldProcess 4 3).2 ∧
    ((shouldProcess 4 3).1 = true ↔ (4 : Int) ≠ 3) :=
  dedup_policy.1 4 3 ⟨false, true, 4, 4, 4, some ⟨[]⟩, some ⟨[]⟩⟩ rfl rfl (by decide) rfl

/-- Claim C5: the reject command is written iff a completed
classification returned `LabelMissing`; a cycle whose verdict is
`LabelPresent`, a cycle whose classification never completed, and a
cycle that never captures, perform no reject write. -/
theorem eject_iff_label_missing :
    ∀ (lastSession : Int) (p : Poll),
      (∀ r : ClassificationResult, (cycle lastSession p).events.verdict = some r →
        ((cycle lastSession p).events.ejected = true ↔
          r = ClassificationResult.LabelMissing)) ∧
      ((cycle lastSession p).events.verdict = none →
        (cycle lastSession p).events.ejected = false) ∧
      ((cycle lastSession p).events.captured = false →
        (cycle lastSession p).events.ejected = false) := by
  intro lastSession p
  by_cases hx : p.exitFlag = true
  · rw [cycle_exit lastSession p hx]
    exact ⟨fun r hr => by simp at hr, fun _ => rfl, fun _ => rfl⟩
  · have hx' : p.exitFlag = false := Bool.eq_false_iff.mpr hx
    by_cases hg : p.sensor = true ∧ lastSession ≠ p.sessionA
    · cases hr : p.classifyRead with
      | none =>
        rw [cycle_run_none lastSession p hx' hg.1 hg.2 hr]
        exact ⟨fun r h => by simp at h, fun _ => rfl, fun h => by simp at h⟩
      | some f =>
        rw [cycle_run_some lastSession p f hx' hg.1 hg.2 hr]
        refine ⟨fun r h => ?_, fun h => by simp at h, fun h => by simp at h⟩
        have hrf : r = classify f := by
          simpa using h.symm
        subst hrf
        by_cases hcl : check_label f.contours
        · simp [classify, hcl]
        · simp [classify, hcl]
    · have h : p.sensor = false ∨ lastSession = p.sessionA := by
        by_cases hs : p.sensor = true
        · right
          by_contra hne
          exact hg ⟨hs, hne⟩
        · left
          exact Bool.eq_false_iff.mpr hs
      rw [cycle_skip lastSession p hx' h]
      exact ⟨fun r hr => by simp at hr, fun _ => rfl, fun _ => rfl⟩

/-- Witness for C5: a processed poll whose frame has no qualifying
contour completes with `LabelMissing` and writes the reject
command. -/
theorem eject_iff_label_missing_witness :
    (cycle 0 ⟨false, true, 1, 1, 1, some ⟨[]⟩, some ⟨[]⟩⟩).events.ejected = true ↔
      ClassificationResult.LabelMissing = ClassificationResult.LabelMissing :=
  (eject_iff_label_missing 0 ⟨false, true, 1, 1, 1, some ⟨[]⟩, some ⟨[]⟩⟩).1
    ClassificationResult.LabelMissing (by decide)

/-- Claim C6: a poll reading the exit flag true halts the loop
(terminal outcome) after releasing the connection, with no sensor
read, no session read, no capture, no classification and no reject
write in that cycle, and the tracked state unchanged. -/
theorem exit_flag_halts_loop :
    ∀ (lastSession : Int) (p : Poll), p.exitFlag = true →
      (cycle lastSession p).outcome = Outcome.halted ∧
      (cycle lastSession p).events.disconnected = true ∧
      (cycle lastSession p).events.sensorRead = false ∧
      (cycle lastSession p).events.sessionReads = 0 ∧
      (cycle lastSession p).events.captured = false ∧
      (cycle lastSession p).events.classifyInvoked = false ∧
      (cycle lastSession p).events.verdict = none ∧
      (cycle lastSession p).events.ejected = false ∧
      (cycle lastSession p).lastSession = lastSession := by
  intro lastSession p hx
  rw [cycle_exit lastSession p hx]
  exact ⟨rfl, rfl, rfl, rfl, rfl, rfl, rfl, rfl, rfl⟩

/-- Witness for C6: a concrete exit poll halts without writes. -/
theorem exit_flag_halts_loop_witness :
    (cycle 2 ⟨true, true, 1, 2, 3, none, none⟩).outcome = Outcome.halted ∧
    (cycle 2 ⟨true, true, 1, 2, 3, none, none⟩).events.disconnected = true ∧
    (cycle 2 ⟨true, true, 1, 2, 3, none, none⟩).events.sensorRead = false ∧
    (cycle 2 ⟨true, true, 1, 2, 3, none, none⟩).events.sessionReads = 0 ∧
    (cycle 2 ⟨true, true, 1, 2, 3, none, none⟩).events.captured = false ∧
    (cycle 2 ⟨true, true, 1, 2, 3, none, none⟩).events.classifyInvoked = false ∧
    (cycle 2 ⟨true, true, 1, 2, 3, none, none⟩).events.verdict = none ∧
    (cycle 2 ⟨true, true, 1, 2, 3, none, none⟩).events.ejected = false ∧
    (cycle 2 ⟨true, true, 1, 2, 3, none, none⟩).lastSession = 2 :=
  exit_flag_halts_loop 2 ⟨true, true, 1, 2, 3, none, none⟩ rfl

/-- Claim C7, counterexample: dedup does NOT give at most one
capture/classify per session id.  From the initial tracked value 0
(line 12), two consecutive polls that both observe the sensor
triggered with the same unchanged session id 5 BOTH capture and
classify: processing id 5 stores 0 (line 87), and 0 ≠ 5 passes the
line-84 comparison again on the next poll. -/
theorem session_five_reprocessed :
    (cycle initLastSession ⟨false, true, 5, 5, 5, some ⟨[]⟩, some ⟨[]⟩⟩).events.captured = true ∧
    (cycle initLastSession ⟨false, true, 5, 5, 5, some ⟨[]⟩, some ⟨[]⟩⟩).events.classifyInvoked
      = true ∧
    (cycle initLastSession ⟨false, true, 5, 5, 5, some ⟨[]⟩, some ⟨[]⟩⟩).outcome
      = Outcome.looped ∧
    (cycle (cycle initLastSession ⟨false, true, 5, 5, 5, some ⟨[]⟩, some ⟨[]⟩⟩).lastSession
        ⟨false, true, 5, 5, 5, some ⟨[]⟩, some ⟨[]⟩⟩).events.captured = true ∧
    (cycle (cycle initLastSession ⟨false, true, 5, 5, 5, some ⟨[]⟩, some ⟨[]⟩⟩).lastSession
        ⟨false, true, 5, 5, 5, some ⟨[]⟩, some ⟨[]⟩⟩).events.classifyInvoked = true := by
  decide

/-- Claim C7, amended: for session ids other than 5, dedup holds —
after a processed stable sensor-triggered poll reading id `s ≠ 5`, a
consecutive poll observing the sensor triggered with the same
unchanged id does not capture again.  (Id 5 is the exception: its
processing stores 0, so consecutive polls reading 5 each re-process.) -/
theorem dedup_no_reprocess_below_five :
    ∀ (lastSession s : Int) (p q : Poll),
      p.exitFlag = false → p.sensor = true → p.stable → p.sessionA = s →
      q.exitFlag = false → q.sensor = true → q.sessionA = s → s ≠ 5 →
      (cycle lastSession p).events.captured = true →
      (cycle (cycle lastSession p).lastSession q).events.captured = false := by
  intro lastSession s p q hpx hps hst hpA hqx hqs hqA h5 hcap
  obtain ⟨hAB, hBC⟩ := hst
  have hne : lastSession ≠ p.sessionA :=
    ((cycle_captured_iff lastSession p hpx).mp hcap).2
  have hlast : (cycle lastSession p).lastSession = s := by
    rw [cycle_process_lastSession lastSession p hpx hps hne, ← hAB, hpA, if_neg h5, ← hBC, ← hAB,
      hpA]
  rw [hlast, cycle_skip s q hqx (Or.inr hqA.symm)]

/-- Witness for C7 (amended): after processing session 4 from tracked
value 0, a second sensor-triggered poll reading 4 does not capture. -/
theorem dedup_no_reprocess_below_five_witness :
    (cycle (cycle 0 ⟨false, true, 4, 4, 4, some ⟨[]⟩, some ⟨[]⟩⟩).lastSession
      ⟨false, true, 4, 4, 4, some ⟨[]⟩, some ⟨[]⟩⟩).events.captured = false :=
  dedup_no_reprocess_below_five 0 4 ⟨false, true, 4, 4, 4, some ⟨[]⟩, some ⟨[]⟩⟩
    ⟨false, true, 4, 4, 4, some ⟨[]⟩, some ⟨[]⟩⟩ rfl rfl (by decide) rfl rfl rfl rfl
    (by decide) (by decide)

/-- Claim C8, counterexample: an acquisition failure is not
cycle-local.  When the classifier's image read fails, the cycle does
not return to polling: `cv2.adaptiveThreshold` raises on the `None`
image and the uncaught exception terminates the whole process
(outcome `crashed`, not `looped`).  Ejecting is indeed skipped. -/
theorem acquisition_failure_not_cycle_local :
    (cycle 0 ⟨false, true, 1, 1, 1, some ⟨[]⟩, none⟩).events.captured = true ∧
    (cycle 0 ⟨false, true, 1, 1, 1, some ⟨[]⟩, none⟩).events.ejected = false ∧
    (cycle 0 ⟨false, true, 1, 1, 1, some ⟨[]⟩, none⟩).outcome ≠ Outcome.looped ∧
    (cycle 0 ⟨false, true, 1, 1, 1, some ⟨[]⟩, none⟩).outcome = Outcome.crashed := by
  decide

/-- Claim C8, amended: when the classifier's own image read fails in a
processed cycle, no classification verdict is produced (no stale or
previous frame is classified) and the reject write is skipped, but the
raised exception escapes the loop and the process terminates instead
of returning to polling.  (A failed read inside `grabFrame` alone is
silent: its result is never consumed.) -/
theorem acquisition_failure_crashes :
    ∀ (lastSession : Int) (p : Poll),
      p.exitFlag = false → p.sensor = true → lastSession ≠ p.sessionA →
      p.classifyRead = none →
        (cycle lastSession p).outcome = Outcome.crashed ∧
        (cycle lastSession p).events.verdict = none ∧
        (cycle lastSession p).events.ejected = false := by
  intro lastSession p hx hs hne hr
  rw [cycle_run_none lastSession p hx hs hne hr]
  exact ⟨rfl, rfl, rfl⟩

/-- Witness for C8 (amended): a concrete failing read crashes the
cycle without a verdict or a reject write. -/
theorem acquisition_failure_crashes_witness :
    (cycle 0 ⟨false, true, 2, 2, 2, some ⟨[]⟩, none⟩).outcome = Outcome.crashed ∧
    (cycle 0 ⟨false, true, 2, 2, 2, some ⟨[]⟩, none⟩).events.verdict = none ∧
    (cycle 0 ⟨false, true, 2, 2, 2, some ⟨[]⟩, none⟩).events.ejected = false :=
  acquisition_failure_crashes 0 ⟨false, true, 2, 2, 2, some ⟨[]⟩, none⟩ rfl rfl (by decide) rfl

/-- Claim C9, counterexample: the verdict does not follow the frame
obtained by `grabFrame`.  In a cycle whose `grabFrame` read yields a
label-bearing frame while the classifier's own line-42 read yields a
bare frame, the verdict is `LabelMissing`, although classifying the
captured frame gives `LabelPresent`. -/
theorem verdict_ignores_grabbed_frame :
    (cycle 0 ⟨false, true, 1, 1, 1, some ⟨[⟨4, 5000, 5000⟩]⟩, some ⟨[]⟩⟩).events.verdict =
      some ClassificationResult.LabelMissing ∧
    classify ⟨[⟨4, 5000, 5000⟩]⟩ = ClassificationResult.LabelPresent ∧
    (cycle 0 ⟨false, true, 1, 1, 1, some ⟨[⟨4, 5000, 5000⟩]⟩, some ⟨[]⟩⟩).events.captured
      = true := by
  decide

/-- Claim C9, amended: in a processed cycle the verdict is computed
from the frame the classifier itself re-reads at line 42, and the
cycle's behaviour is entirely independent of the `grabFrame` read:
two polls differing only in the `grabFrame` result produce identical
cycle results.  (Both reads target the same static image file, so in
deployment they coincide.) -/
theorem verdict_follows_classifier_reread :
    (∀ (lastSession : Int) (p : Poll) (f : Frame),
      p.exitFlag = false → p.sensor = true → lastSession ≠ p.sessionA →
      p.classifyRead = some f →
        (cycle lastSession p).events.verdict = some (classify f) ∧
        (cycle lastSession p).events.ejected = !check_label f.contours) ∧
    (∀ (lastSession : Int) (p q : Poll),
      p.exitFlag = q.exitFlag → p.sensor = q.sensor → p.sessionA = q.sessionA →
      p.sessionB = q.sessionB → p.sessionC = q.sessionC → p.classifyRead = q.classifyRead →
      cycle lastSession p = cycle lastSession q) := by
  constructor
  · intro lastSession p f hx hs hne hr
    rw [cycle_run_some lastSession p f hx hs hne hr]
    exact ⟨rfl, rfl⟩
  · intro lastSession p q h1 h2 h3 h4 h5 h6
    cases p
    cases q
    simp only at h1 h2 h3 h4 h5 h6
    subst h1
    subst h2
    subst h3
    subst h4
    subst h5
    subst h6
    rfl

/-- Witness for C9 (amended): in a concrete processed cycle with a
bare classify-side frame the verdict is `LabelMissing` and no two
grab-side reads change the result. -/
theorem verdict_follows_classifier_reread_witness :
    (cycle 0 ⟨false, true, 1, 1, 1, some ⟨[⟨4, 5000, 5000⟩]⟩, some ⟨[]⟩⟩).events.verdict =
        some (classify ⟨[]⟩) ∧
    (cycle 0 ⟨false, true, 1, 1, 1, some ⟨[⟨4, 5000, 5000⟩]⟩, some ⟨[]⟩⟩).events.ejected =
        !check_label (Frame.mk []).contours :=
  verdict_follows_classifier_reread.1 0 ⟨false, true, 1, 1, 1, some ⟨[⟨4, 5000, 5000⟩]⟩, some ⟨[]⟩⟩
    ⟨[]⟩ rfl rfl (by decide) rfl

/-- Claim C10, counterexample: the range {0,1,2,3,4} for the tracked
value does not follow from the 0..5 range of the session reads alone,
because the loop reads the session node three separate times (lines
84, 86 and 89).  From the initial tracked value 0, a cycle whose
three reads return 1, 4 and 5 — every read within 0..5 — takes the
`else` branch at line 88 (the line-86 read was 4, not 5) and stores
the line-89 read: `lastSession = 5`.  A subsequent sensor-triggered
poll reading session id 5 then fails the dedup comparison and does
not capture. -/
theorem unstable_reads_store_five :
    ((0 : Int) ≤ 1 ∧ (1 : Int) ≤ 5 ∧ (0 : Int) ≤ 4 ∧ (4 : Int) ≤ 5 ∧
      (0 : Int) ≤ 5 ∧ (5 : Int) ≤ 5) ∧
    (cycle initLastSession ⟨false, true, 1, 4, 5, some ⟨[]⟩, some ⟨[]⟩⟩).lastSession = 5 ∧
    (cycle initLastSession ⟨false, true, 1, 4, 5, some ⟨[]⟩, some ⟨[]⟩⟩).outcome
      = Outcome.looped ∧
    (cycle (cycle initLastSession ⟨false, true, 1, 4, 5, some ⟨[]⟩, some ⟨[]⟩⟩).lastSession
        ⟨false, true, 5, 5, 5, some ⟨[]⟩, some ⟨[]⟩⟩).events.captured = false := by
  decide

/-- Claim C10, amended: the tracked session value is initialized to 0,
and — assuming every session read lies in 0..5 AND the up-to-three
session reads of each cycle (lines 84, 86, 89) return the same value —
it lies in {0,1,2,3,4} at the start of every cycle (the value after
any run of the loop), since a stable observed id of 5 stores 0;
consequently any sensor-triggered non-exit poll reading session id 5
then passes the dedup comparison and captures.  Without within-cycle
stability the invariant fails: a cycle reading 1, 4 and 5 at the
three sites stores 5. -/
theorem lastSession_range_invariant :
    initLastSession = 0 ∧
    ∀ tr : List Poll,
      (∀ p ∈ tr, p.stable ∧ 0 ≤ p.sessionA ∧ p.sessionA ≤ 5) →
        (0 ≤ runLoop initLastSession tr ∧ runLoop initLastSession tr ≤ 4) ∧
        ∀ q : Poll, q.exitFlag = false → q.sensor = true → q.sessionA = 5 →
          (cycle (runLoop initLastSession tr) q).events.captured = true := by
  refine ⟨rfl, fun tr hall => ?_⟩
  have hr := runLoop_range tr initLastSession (by decide) (by decide) hall
  refine ⟨hr, fun q hx hs h5 => ?_⟩
  have hne : runLoop initLastSession tr ≠ q.sessionA := by
    rw [h5]
    omega
  exact (cycle_captured_iff (runLoop initLastSession tr) q hx).mpr ⟨hs, hne⟩

/-- Witness for C10: after a run processing session 3, a poll reading
session 5 still captures. -/
theorem lastSession_range_invariant_witness :
    (cycle (runLoop initLastSession [⟨false, true, 3, 3, 3, some ⟨[]⟩, some ⟨[]⟩⟩])
      ⟨false, true, 5, 5, 5, none, none⟩).events.captured = true :=
  (lastSession_range_invariant.2 [⟨false, true, 3, 3, 3, some ⟨[]⟩, some ⟨[]⟩⟩]
    (by decide)).2 ⟨false, true, 5, 5, 5, none, none⟩ rfl rfl rfl

end MainPy
